import Mathlib

/-!
# Verification of the OpenAI Realtime connection manager

A shallow embedding of `src/nyra_realtime/openai_manager.py`
(`OpenAIRealtimeManager`).  The manager owns a `connected` flag, an optional
transport handle `_ws`, two unbounded FIFO queues (`_send_queue`,
`_recv_queue`), two background loop tasks, three subscriber registries, and a
reconnect supervisor `run_forever`.

The embedding models the async event loop at await granularity: each public
operation (`connect`, `disconnect`, `send_audio`, `receive_voice`) and each
single iteration of the sender/receiver loop bodies is one atomic step on a
`World`, and executions are arbitrary lists of such steps.  The transport
returned by `ws_factory` is scripted by a `TransportBehavior`: per-call
outcomes of `send`, `recv` and `close`, plus `hasattr` capability flags, so
every branch of the Python code (missing `send`/`recv`/`close` attributes,
raising calls, `recv()` returning `None`) is represented.
-/

/-- A frame is an opaque byte payload (`bytes` in the source). -/
abbrev Frame := List Nat

/-- Outcome of one scripted `recv()` call on the transport. -/
inductive RecvScript where
  /-- `recv()` returns these bytes. -/
  | frame (f : Frame)
  /-- `recv()` returns `None` (remote close). -/
  | closed
  /-- `recv()` raises a transport error. -/
  | raises
  /-- `recv()` has not returned yet (the awaiting task stays blocked). -/
  | pending
deriving DecidableEq, Repr

/-- Scripted behaviour of one transport object produced by `ws_factory`. -/
structure TransportBehavior where
  /-- `hasattr(ws, "send")`. -/
  hasSend : Bool
  /-- `hasattr(ws, "recv")`. -/
  hasRecv : Bool
  /-- `hasattr(ws, "close")`. -/
  hasClose : Bool
  /-- Whether the n-th `send` call returns normally (`true`) or raises. -/
  sendOk : Nat → Bool
  /-- Result of the n-th `recv` call. -/
  recvRes : Nat → RecvScript
  /-- Whether `close()` returns normally (`true`) or raises. -/
  closeOk : Bool

/-- Error kinds surfaced by the manager, mirroring the source's exceptions. -/
inductive ErrKind where
  /-- `RuntimeError("No websocket factory provided")`. -/
  | configError
  /-- The `ws_factory()` call raised. -/
  | factoryError
  /-- `ws.send(...)` raised inside the sender loop. -/
  | sendError
  /-- `ws.recv()` raised inside the receiver loop. -/
  | recvError
deriving DecidableEq, Repr

/-- A registered subscriber callback: an identifier plus whether invoking it
raises an exception. -/
structure Cb where
  id : Nat
  throws : Bool
deriving DecidableEq, Repr

/-- Constructor arguments and scripted environment of one manager instance:
whether a `ws_factory` was supplied, which factory calls raise, the behaviour
of each transport the factory produces, and the three subscriber registries
(built by `register_on_connected` / `register_on_disconnected` /
`register_on_message`, which append in registration order). -/
structure Config where
  hasFactory : Bool
  /-- Whether the n-th `ws_factory()` call raises (0-based). -/
  factoryRaises : Nat → Bool
  /-- Behaviour of the n-th transport object created (0-based handle id). -/
  behavior : Nat → TransportBehavior
  onConnected : List Cb
  onDisconnected : List Cb
  onMessage : List Cb

/-- Observable per-handle transport state: calls made so far. -/
structure HandleState where
  /-- Number of `send` calls made on this handle. -/
  sendCalls : Nat
  /-- Frames passed to `send`, in call order. -/
  sentLog : List Frame
  /-- Number of completed `recv` calls on this handle. -/
  recvCalls : Nat
  /-- Number of `close` calls made on this handle. -/
  closeCalls : Nat
deriving DecidableEq, Repr

/-- The all-zero handle state a handle starts in. -/
def HandleState.init : HandleState :=
  { sendCalls := 0, sentLog := [], recvCalls := 0, closeCalls := 0 }

/-- Mutable fields of `OpenAIRealtimeManager`. -/
structure ManagerState where
  /-- `self.connected`. -/
  connected : Bool
  /-- `self._ws`: id of the stored handle, if any. -/
  ws : Option Nat
  /-- `self._send_queue` contents, oldest first. -/
  sendQueue : List Frame
  /-- `self._recv_queue` contents, oldest first. -/
  recvQueue : List Frame
  /-- The sender loop task exists and has not finished or been cancelled. -/
  senderRunning : Bool
  /-- The receiver loop task exists and has not finished or been cancelled. -/
  receiverRunning : Bool
  /-- `self._connect_attempts`. -/
  connectAttempts : Nat
deriving DecidableEq, Repr

/-- Observable callback invocations (the manager logs and swallows any
exception a subscriber raises, so every registered subscriber is reached). -/
inductive Ev where
  | onConnectedCall (id : Nat) (threw : Bool)
  | onDisconnectedCall (id : Nat) (err : Option ErrKind) (threw : Bool)
  | onMessageCall (id : Nat) (f : Frame) (threw : Bool)
  /-- A `close()` exception was caught and logged by `disconnect`. -/
  | closeErrorLogged
  /-- The sender loop dropped a frame because the transport has no `send`. -/
  | droppedNoSend (f : Frame)
deriving DecidableEq, Repr

/-- Full model state: manager, per-handle transport states (indexed by handle
id), number of handles created, event log, and the frames already returned to
the application by `receive_voice`. -/
structure World where
  m : ManagerState
  handles : Nat → HandleState
  numHandles : Nat
  events : List Ev
  consumed : List Frame

/-- Freshly constructed manager (`__init__`): disconnected, no handle, empty
queues, no tasks. -/
def World.init : World :=
  { m := { connected := false, ws := none, sendQueue := [], recvQueue := [],
           senderRunning := false, receiverRunning := false,
           connectAttempts := 0 },
    handles := fun _ => HandleState.init,
    numHandles := 0, events := [], consumed := [] }

/-- Update the state of one handle. -/
def World.updHandle (w : World) (hid : Nat) (f : HandleState → HandleState) :
    World :=
  { w with handles := fun n => if n = hid then f (w.handles n) else w.handles n }

/-- `for cb in self._on_connected: try: cb() except: log` — every subscriber
is invoked in registration order; exceptions are logged and swallowed, so
nothing else changes (source lines 103–107). -/
def notifyConnected (cfg : Config) (w : World) : World :=
  { w with events := w.events ++ cfg.onConnected.map (fun c => Ev.onConnectedCall c.id c.throws) }

/-- `for cb in self._on_disconnected: try: cb(err) except: log` — used by
`disconnect`, both loops and `run_forever` (source lines 133–137, 189–193,
225–229, 246–250, 275–279). -/
def notifyDisconnected (cfg : Config) (err : Option ErrKind) (w : World) :
    World :=
  { w with events := w.events ++ cfg.onDisconnected.map (fun c => Ev.onDisconnectedCall c.id err c.throws) }

/-- `for cb in self._on_message: try: cb(result) except: log` (source lines
234–238). -/
def notifyMessage (cfg : Config) (f : Frame) (w : World) : World :=
  { w with events := w.events ++ cfg.onMessage.map (fun c => Ev.onMessageCall c.id f c.throws) }

/-- Result of one `connect()` call: Python either returns or raises; in both
cases the mutations made before the raise persist. -/
inductive ConnectResult where
  | ok (w : World)
  | raised (e : ErrKind) (w : World)

/-- `connect()` (source lines 79–107): return immediately if connected; raise
`RuntimeError` if no factory; increment `_connect_attempts`; call the factory
(a raise propagates, with the attempt already counted); on success store the
handle, set `connected`, start both loop tasks, then notify `on_connected`
subscribers. -/
def connectE (cfg : Config) (w : World) : ConnectResult :=
  if w.m.connected then ConnectResult.ok w
  else if ¬ cfg.hasFactory then ConnectResult.raised ErrKind.configError w
  else
    let n := w.m.connectAttempts
    let w1 := { w with m := { w.m with connectAttempts := n + 1 } }
    if cfg.factoryRaises n then ConnectResult.raised ErrKind.factoryError w1
    else
      let hid := w1.numHandles
      let w2 := { w1 with numHandles := w1.numHandles + 1, m := { w1.m with ws := some hid, connected := true, senderRunning := true, receiverRunning := true } }
      ConnectResult.ok (notifyConnected cfg w2)

/-- The `try: ... self._ws.close() ... except: log` block of `disconnect`
(source lines 122–129): close is called only if a handle is stored and it has
a `close` attribute; an exception from it is logged and swallowed. -/
def closeStoredHandle (cfg : Config) (w : World) : World :=
  match w.m.ws with
  | none => w
  | some hid =>
    if (cfg.behavior hid).hasClose then
      let w1 := w.updHandle hid
        (fun hs => { hs with closeCalls := hs.closeCalls + 1 })
      if (cfg.behavior hid).closeOk then w1
      else { w1 with events := w1.events ++ [Ev.closeErrorLogged] }
    else w

/-- `disconnect()` (source lines 109–137): set `connected := False`, cancel
both loop tasks, close the stored transport (errors swallowed), clear the
handle, then notify `on_disconnected(None)` subscribers. -/
def disconnect (cfg : Config) (w : World) : World :=
  let w1 := { w with m := { w.m with connected := false, senderRunning := false, receiverRunning := false } }
  let w2 := closeStoredHandle cfg w1
  let w3 := { w2 with m := { w2.m with ws := none } }
  notifyDisconnected cfg none w3

/-- `send_audio(data)` (source lines 139–144): append to the outbound queue;
never blocks, never fails. -/
def send_audio (f : Frame) (w : World) : World :=
  { w with m := { w.m with sendQueue := w.m.sendQueue ++ [f] } }

/-- One completed `self._recv_queue.get()` inside `receive_voice` at this
model's granularity: if the inbound queue is empty the call stays blocked
(no state change); otherwise the oldest frame is removed and returned to the
application (recorded in `consumed`). -/
def receiveVoiceStep (w : World) : World :=
  match w.m.recvQueue with
  | [] => w
  | f :: rest =>
    { w with m := { w.m with recvQueue := rest },
             consumed := w.consumed ++ [f] }

/-- One iteration of the sender loop body (source lines 167–201): check
`while self.connected` (a false check ends the task); block on
`_send_queue.get()` (empty queue: no step); then `ws.send(frame)` — a missing
`send` attribute drops the frame; a raising send marks the manager
disconnected, notifies `on_disconnected(exc)` and breaks out of the loop. -/
def senderStep (cfg : Config) (w : World) : World :=
  if ¬ w.m.senderRunning then w
  else if ¬ w.m.connected then
    { w with m := { w.m with senderRunning := false } }
  else
    match w.m.sendQueue with
    | [] => w
    | f :: rest =>
      let w1 := { w with m := { w.m with sendQueue := rest } }
      match w1.m.ws with
      | none =>
        -- `hasattr(None, "send")` is false: the frame is dropped
        { w1 with events := w1.events ++ [Ev.droppedNoSend f] }
      | some hid =>
        if ¬ (cfg.behavior hid).hasSend then
          { w1 with events := w1.events ++ [Ev.droppedNoSend f] }
        else
          let n := (w1.handles hid).sendCalls
          let w2 := w1.updHandle hid (fun hs =>
            { hs with sendCalls := hs.sendCalls + 1,
                      sentLog := hs.sentLog ++ [f] })
          if (cfg.behavior hid).sendOk n then w2
          else
            let w3 := { w2 with m := { w2.m with connected := false } }
            let w4 := notifyDisconnected cfg (some ErrKind.sendError) w3
            { w4 with m := { w4.m with senderRunning := false } }

/-- One iteration of the receiver loop body (source lines 203–253): check
`while self.connected` (a false check ends the task); a missing `recv`
attribute sleeps and continues; `recv()` returning `None` marks disconnected,
notifies `on_disconnected(None)` and breaks; a received frame is pushed onto
the inbound queue and then `on_message` subscribers run; a raising `recv`
marks disconnected, notifies `on_disconnected(exc)` and breaks. -/
def receiverStep (cfg : Config) (w : World) : World :=
  if ¬ w.m.receiverRunning then w
  else if ¬ w.m.connected then
    { w with m := { w.m with receiverRunning := false } }
  else
    match w.m.ws with
    | none => w
    | some hid =>
      if ¬ (cfg.behavior hid).hasRecv then w
      else
        let n := (w.handles hid).recvCalls
        match (cfg.behavior hid).recvRes n with
        | RecvScript.pending => w
        | RecvScript.closed =>
          let w1 := w.updHandle hid (fun hs =>
            { hs with recvCalls := hs.recvCalls + 1 })
          let w2 := { w1 with m := { w1.m with connected := false } }
          let w3 := notifyDisconnected cfg none w2
          { w3 with m := { w3.m with receiverRunning := false } }
        | RecvScript.frame f =>
          let w1 := w.updHandle hid (fun hs =>
            { hs with recvCalls := hs.recvCalls + 1 })
          let w2 := { w1 with m := { w1.m with recvQueue := w1.m.recvQueue ++ [f] } }
          notifyMessage cfg f w2
        | RecvScript.raises =>
          let w1 := w.updHandle hid (fun hs =>
            { hs with recvCalls := hs.recvCalls + 1 })
          let w2 := { w1 with m := { w1.m with connected := false } }
          let w3 := notifyDisconnected cfg (some ErrKind.recvError) w2
          { w3 with m := { w3.m with receiverRunning := false } }

/-- One schedulable step of the system. -/
inductive Act where
  | connect
  | disconnect
  | sendAudio (f : Frame)
  | receiveVoice
  | senderStep
  | receiverStep
deriving DecidableEq, Repr

/-- Execute one step.  A `connect()` that raises propagates to its caller,
but the state mutations it made persist. -/
def step (cfg : Config) (w : World) : Act → World
  | Act.connect =>
    match connectE cfg w with
    | ConnectResult.ok w' => w'
    | ConnectResult.raised _ w' => w'
  | Act.disconnect => disconnect cfg w
  | Act.sendAudio f => send_audio f w
  | Act.receiveVoice => receiveVoiceStep w
  | Act.senderStep => senderStep cfg w
  | Act.receiverStep => receiverStep cfg w

/-- Execute a schedule of steps from a starting world. -/
def run (cfg : Config) (w : World) (acts : List Act) : World :=
  acts.foldl (step cfg) w

/-!
## `receive_voice` with a timeout

`receive_voice` (source lines 146–153) is
`await asyncio.wait_for(self._recv_queue.get(), timeout) if timeout else await self._recv_queue.get()`.
The guard is Python truthiness: both `None` and `0` / `0.0` select the bare
`get()` with no timeout.  The model takes the inbound queue contents plus, when
the queue is empty, the time of the next frame arrival (`none` = no frame ever
arrives); durations are exact rationals.
-/

/-- Possible outcomes of one `receive_voice` call. -/
inductive RecvVoiceOutcome where
  /-- Returns these bytes. -/
  | frame (f : Frame)
  /-- Raises `asyncio.TimeoutError` (the spec's `TimeoutKind`). -/
  | timeoutKind
  /-- Never returns: the await blocks forever. -/
  | blocksForever
deriving DecidableEq, Repr

/-- A bare `await self._recv_queue.get()`: the oldest queued frame, else the
next arrival, else blocked forever. -/
def getNoTimeout (queue : List Frame) (arrival : Option (ℚ × Frame)) :
    RecvVoiceOutcome :=
  match queue with
  | f :: _ => RecvVoiceOutcome.frame f
  | [] =>
    match arrival with
    | some af => RecvVoiceOutcome.frame af.2
    | none => RecvVoiceOutcome.blocksForever

/-- `receive_voice(timeout)` (source line 151).  `arrival = some (a, f)` means
frame `f` reaches the empty inbound queue after `a` time units; `wait_for`
returns it when `a < t` and raises `TimeoutError` otherwise. -/
def receive_voice (timeout : Option ℚ) (queue : List Frame)
    (arrival : Option (ℚ × Frame)) : RecvVoiceOutcome :=
  match timeout with
  | none => getNoTimeout queue arrival
  | some t =>
    if t = 0 then getNoTimeout queue arrival
    else
      match queue with
      | f :: _ => RecvVoiceOutcome.frame f
      | [] =>
        match arrival with
        | some af =>
          if af.1 < t then RecvVoiceOutcome.frame af.2
          else RecvVoiceOutcome.timeoutKind
        | none => RecvVoiceOutcome.timeoutKind

/-!
## Constructor backoff handling

`__init__` (source line 65): `self.reconnect_backoff = reconnect_backoff or
[0.1, 0.2, 0.5, 1.0]` — Python `or` substitutes the default for any falsy
argument, i.e. for `None` and for the empty list.
-/

/-- The default backoff schedule `[0.1, 0.2, 0.5, 1.0]`. -/
def defaultBackoff : List ℚ := [1/10, 2/10, 5/10, 1]

/-- The stored `self.reconnect_backoff` as a function of the constructor
argument. -/
def initBackoff : Option (List ℚ) → List ℚ
  | none => defaultBackoff
  | some l =>
    match l with
    | [] => defaultBackoff
    | _ => l

/-!
## The reconnect supervisor `run_forever`

Source lines 255–292.  The stop event is modelled by a check counter: the
supervisor consults `stop_event.is_set()` at the outer loop guard, at each
poll-loop guard, and at the post-attempt check, and the event reads as set
from the `stopAfter`-th consultation on.  The background loops' effect on
`self.connected` during the connected poll is abstracted as "the connection
stays up" (the claims below exercise only the failure path, where the loops
are never started).  Fuel bounds the recursion of the otherwise unbounded
loop.

Lines 290–292 of the source (`wait = self.reconnect_backoff[...]`,
`backoff_index += 1`, `await asyncio.sleep(wait)`) sit inside the
`except Exception:` handler of the *final cleanup* `try: await
self.disconnect()`, and `disconnect()` swallows every exception it can meet
(close errors and subscriber errors), so that handler is unreachable; the
model's cleanup therefore performs the disconnect and never sleeps, and no
other statement of `run_forever` sleeps a backoff duration.  `backoff_index`
is only ever assigned `0` on the reachable paths (lines 262 and 270), which
`backoffIdx` mirrors.
-/

/-- Observable supervisor actions, in program order. -/
inductive SupEv where
  /-- A `self.connect()` call is made (line 265). -/
  | attempt
  /-- One `await asyncio.sleep(0.05)` of the connected poll (line 268). -/
  | pollSleep
  /-- An `await asyncio.sleep(wait)` of a backoff duration. -/
  | backoffSleep (d : ℚ)
  /-- The final-cleanup `await self.disconnect()` (line 287). -/
  | finalDisconnect
deriving DecidableEq, Repr

/-- Supervisor state: the world, the stop-check counter, `backoff_index`, and
the trace of observable actions. -/
structure SupState where
  w : World
  clock : Nat
  backoffIdx : Nat
  trace : List SupEv

/-- One `stop_event.is_set()` consultation. -/
def stopIsSet (stopAfter : Nat) (s : SupState) : Bool × SupState :=
  (decide (stopAfter ≤ s.clock), { s with clock := s.clock + 1 })

/-- Final cleanup (lines 286–292): `await self.disconnect()`; the except
branch holding the stray backoff sleep is unreachable because `disconnect`
cannot raise. -/
def supCleanup (cfg : Config) (s : SupState) : SupState :=
  { s with w := disconnect cfg s.w, trace := s.trace ++ [SupEv.finalDisconnect] }

/-- The inner poll `while self.connected and not stop_event.is_set(): await
asyncio.sleep(0.05)` (lines 267–268). -/
def supPoll (stopAfter : Nat) : Nat → SupState → SupState
  | 0, s => s
  | fuel + 1, s =>
    if ¬ s.w.m.connected then s
    else
      let p := stopIsSet stopAfter s
      if p.1 then p.2
      else supPoll stopAfter fuel { p.2 with trace := p.2.trace ++ [SupEv.pollSleep] }

/-- The outer `while not stop_event.is_set():` loop of `run_forever` (lines
262–292): attempt `connect()`; on a raise, set `connected := False` and
notify `on_disconnected(exc)` subscribers (lines 271–279); then the
`# apply backoff` block (lines 281–283) only re-checks the stop event — it
performs no sleep and leaves `backoff_index` unchanged — and the loop
retries. -/
def runForeverAux (cfg : Config) (stopAfter : Nat) : Nat → SupState → SupState
  | 0, s => s
  | fuel + 1, s =>
    let pA := stopIsSet stopAfter s
    if pA.1 then supCleanup cfg pA.2
    else
      let s1 := { pA.2 with trace := pA.2.trace ++ [SupEv.attempt] }
      match connectE cfg s1.w with
      | ConnectResult.raised e w' =>
        let w2 := { w' with m := { w'.m with connected := false } }
        let w3 := notifyDisconnected cfg (some e) w2
        let s2 := { s1 with w := w3 }
        let pC := stopIsSet stopAfter s2
        if pC.1 then supCleanup cfg pC.2
        else runForeverAux cfg stopAfter fuel pC.2
      | ConnectResult.ok w' =>
        let s2 := supPoll stopAfter fuel { s1 with w := w' }
        let s3 := { s2 with backoffIdx := 0 }
        let pC := stopIsSet stopAfter s3
        if pC.1 then supCleanup cfg pC.2
        else runForeverAux cfg stopAfter fuel pC.2

/-- `run_forever(stop_event)` on a freshly constructed manager. -/
def runForever (cfg : Config) (stopAfter fuel : Nat) : SupState :=
  runForeverAux cfg stopAfter fuel
    { w := World.init, clock := 0, backoffIdx := 0, trace := [] }

/-!
## Derived schedules and concrete scenario configurations

Concrete `Config`s and worlds used to evaluate the model on specific inputs.
-/

/-- Issue `send_audio` for each frame, in order. -/
def enqueueAll (fs : List Frame) (w : World) : World :=
  fs.foldl (fun w f => send_audio f w) w

/-- A fully well-behaved transport whose `recv` never returns. -/
def okB : TransportBehavior :=
  { hasSend := true, hasRecv := true, hasClose := true,
    sendOk := fun _ => true, recvRes := fun _ => RecvScript.pending,
    closeOk := true }

/-- A transport whose every `send` call raises. -/
def badSendB : TransportBehavior := { okB with sendOk := fun _ => false }

/-- A transport that delivers one frame `[9]` and then blocks. -/
def recvOnceB : TransportBehavior :=
  { okB with recvRes := fun n => if n = 0 then RecvScript.frame [9] else RecvScript.pending }

/-- A transport that delivers frames `[3]`, `[4]` and then blocks. -/
def recvTwoB : TransportBehavior :=
  { okB with recvRes := fun n =>
      if n = 0 then RecvScript.frame [3]
      else if n = 1 then RecvScript.frame [4]
      else RecvScript.pending }

/-- Factory works; the first transport raises on every `send`, later ones are
fine; one disconnect subscriber. -/
def cfgBadSend : Config :=
  { hasFactory := true, factoryRaises := fun _ => false,
    behavior := fun hid => if hid = 0 then badSendB else okB,
    onConnected := [], onDisconnected := [{ id := 5, throws := false }],
    onMessage := [] }

/-- No `ws_factory` supplied; subscribers present on every registry. -/
def cfgNoFactory : Config :=
  { hasFactory := false, factoryRaises := fun _ => false,
    behavior := fun _ => okB,
    onConnected := [{ id := 1, throws := true }],
    onDisconnected := [{ id := 2, throws := false }],
    onMessage := [] }

/-- Every `ws_factory()` call raises; two disconnect subscribers, one of
which itself throws. -/
def cfgAlwaysFail : Config :=
  { hasFactory := true, factoryRaises := fun _ => true,
    behavior := fun _ => okB,
    onConnected := [],
    onDisconnected := [{ id := 7, throws := false }, { id := 8, throws := true }],
    onMessage := [] }

/-- Working factory and transport (`recvOnceB`); every registry holds a
throwing subscriber followed by a normal one. -/
def cfgThrowers : Config :=
  { hasFactory := true, factoryRaises := fun _ => false,
    behavior := fun _ => recvOnceB,
    onConnected := [{ id := 1, throws := true }, { id := 2, throws := false }],
    onDisconnected := [{ id := 3, throws := true }, { id := 4, throws := false }],
    onMessage := [{ id := 5, throws := true }, { id := 6, throws := false }] }

/-- Working factory; the transport delivers `[3]`, `[4]`; a throwing
`on_message` subscriber. -/
def cfgRecvTwo : Config :=
  { hasFactory := true, factoryRaises := fun _ => false,
    behavior := fun _ => recvTwoB,
    onConnected := [], onDisconnected := [],
    onMessage := [{ id := 5, throws := true }] }

/-- A freshly connected manager under `cfgThrowers`. -/
def wConnected : World := run cfgThrowers World.init [Act.connect]

/-- A freshly connected manager under `cfgRecvTwo`. -/
def wRecvTwo : World := run cfgRecvTwo World.init [Act.connect]

/-!
## Helper lemmas
-/

/-- Subscriber notification touches only the event log. -/
theorem notifyConnected_proj (cfg : Config) (w : World) :
    (notifyConnected cfg w).m = w.m
  ∧ (notifyConnected cfg w).handles = w.handles
  ∧ (notifyConnected cfg w).consumed = w.consumed := ⟨rfl, rfl, rfl⟩

/-- Subscriber notification touches only the event log. -/
theorem notifyDisconnected_proj (cfg : Config) (err : Option ErrKind) (w : World) :
    (notifyDisconnected cfg err w).m = w.m
  ∧ (notifyDisconnected cfg err w).handles = w.handles
  ∧ (notifyDisconnected cfg err w).consumed = w.consumed := ⟨rfl, rfl, rfl⟩

/-- Subscriber notification touches only the event log. -/
theorem notifyMessage_proj (cfg : Config) (f : Frame) (w : World) :
    (notifyMessage cfg f w).m = w.m
  ∧ (notifyMessage cfg f w).handles = w.handles
  ∧ (notifyMessage cfg f w).consumed = w.consumed := ⟨rfl, rfl, rfl⟩

/-- Closing the stored handle never changes the manager fields, the consumed
list, or the number of handles. -/
theorem closeStoredHandle_proj (cfg : Config) (w : World) :
    (closeStoredHandle cfg w).m = w.m
  ∧ (closeStoredHandle cfg w).consumed = w.consumed := by
  unfold closeStoredHandle World.updHandle
  cases w.m.ws with
  | none => exact ⟨rfl, rfl⟩
  | some hid =>
    dsimp only
    split_ifs <;> exact ⟨rfl, rfl⟩

/-- `disconnect` leaves both queues and the consumed list untouched. -/
theorem disconnect_queues (cfg : Config) (w : World) :
    (disconnect cfg w).m.sendQueue = w.m.sendQueue
  ∧ (disconnect cfg w).m.recvQueue = w.m.recvQueue
  ∧ (disconnect cfg w).consumed = w.consumed := by
  unfold disconnect
  have h := closeStoredHandle_proj cfg { w with m := { w.m with connected := false, senderRunning := false, receiverRunning := false } }
  refine ⟨?_, ?_, ?_⟩ <;> simp [notifyDisconnected, h.1, h.2]

/-- A `connect()` call — succeeding or raising — leaves both queues and the
consumed list untouched. -/
theorem connect_queues (cfg : Config) (w : World) :
    (step cfg w Act.connect).m.sendQueue = w.m.sendQueue
  ∧ (step cfg w Act.connect).m.recvQueue = w.m.recvQueue
  ∧ (step cfg w Act.connect).consumed = w.consumed := by
  cases hc : w.m.connected <;> cases hf : cfg.hasFactory <;>
    cases hfr : cfg.factoryRaises w.m.connectAttempts <;>
      simp [step, connectE, notifyConnected, hc, hf, hfr]

/-!
## Claim theorems
-/

/-- C10: the stored backoff schedule is never empty — the constructor
substitutes the default `[0.1, 0.2, 0.5, 1.0]` for both `None` and an
explicitly supplied empty list, and keeps any non-empty list. -/
theorem c10_reconnect_backoff_defaulting :
    (∀ rb, initBackoff rb ≠ [])
  ∧ initBackoff none = defaultBackoff
  ∧ initBackoff (some []) = defaultBackoff
  ∧ ∀ l, l ≠ [] → initBackoff (some l) = l := by
  refine ⟨?_, rfl, rfl, ?_⟩
  · intro rb
    cases rb with
    | none => simp [initBackoff, defaultBackoff]
    | some l => cases l <;> simp [initBackoff, defaultBackoff]
  · intro l hl
    cases l with
    | nil => exact absurd rfl hl
    | cons a t => rfl

/-- Witness for C10 at concrete schedules. -/
theorem c10_reconnect_backoff_defaulting_witness :
    initBackoff (some [5]) = [5] ∧ initBackoff (some []) = defaultBackoff :=
  ⟨c10_reconnect_backoff_defaulting.2.2.2 [5] (by simp),
   c10_reconnect_backoff_defaulting.2.2.1⟩

/-- C7: `connect()` with no factory configured, called while not connected,
raises the configuration error and has no side effects at all: the state
(including `Disconnected`, the absent handle, the stopped tasks, the queues
and the event log) is exactly what it was. -/
theorem c7_connect_without_factory (cfg : Config) (w : World)
    (hf : cfg.hasFactory = false) (hc : w.m.connected = false) :
    connectE cfg w = ConnectResult.raised ErrKind.configError w
  ∧ step cfg w Act.connect = w := by
  have h1 : connectE cfg w = ConnectResult.raised ErrKind.configError w := by
    unfold connectE
    simp [hf, hc]
  exact ⟨h1, by simp [step, h1]⟩

/-- Witness for C7: a fresh manager with no factory and subscribers present. -/
theorem c7_connect_without_factory_witness :
    connectE cfgNoFactory World.init = ConnectResult.raised ErrKind.configError World.init
  ∧ step cfgNoFactory World.init Act.connect = World.init :=
  c7_connect_without_factory cfgNoFactory World.init rfl rfl

/-- C2 counterexample: `receive_voice(timeout=0)` on an empty inbound queue
with no frame ever arriving blocks forever instead of failing with
`TimeoutKind` — Python's `if timeout` treats the supplied value `0` as "no
timeout", so the claim's "for every supplied timeout value t" is false at
`t = 0`. -/
theorem c2_timeout_zero_counterexample :
    receive_voice (some 0) [] none = RecvVoiceOutcome.blocksForever
  ∧ receive_voice (some 0) [] none ≠ RecvVoiceOutcome.timeoutKind := by
  constructor <;> decide

/-- C2 amended: for every supplied *nonzero* timeout `t`, `receive_voice`
fails with `TimeoutKind` when the queue is empty and no frame arrives within
`t`, returns the oldest queued frame if one is queued, returns the arriving
frame when it arrives within `t`; with no timeout it never fails with
`TimeoutKind` (it waits indefinitely).  A supplied timeout of `0` behaves
like no timeout. -/
theorem c2_receive_voice_timeout_semantics (t : ℚ) (ht : t ≠ 0)
    (q : List Frame) (arr : Option (ℚ × Frame)) :
    (q = [] → (∀ a f, arr = some (a, f) → t ≤ a) →
      receive_voice (some t) q arr = RecvVoiceOutcome.timeoutKind)
  ∧ (∀ f r, q = f :: r → receive_voice (some t) q arr = RecvVoiceOutcome.frame f)
  ∧ (∀ a f, q = [] → arr = some (a, f) → a < t →
      receive_voice (some t) q arr = RecvVoiceOutcome.frame f)
  ∧ receive_voice none q arr ≠ RecvVoiceOutcome.timeoutKind := by
  refine ⟨?_, ?_, ?_, ?_⟩
  · intro hq harr
    subst hq
    unfold receive_voice
    dsimp only
    rw [if_neg ht]
    cases arr with
    | none => rfl
    | some af =>
      obtain ⟨a, f⟩ := af
      have hle : t ≤ a := harr a f rfl
      simp [not_lt.mpr hle]
  · intro f r hq
    subst hq
    unfold receive_voice
    dsimp only
    rw [if_neg ht]
  · intro a f hq harr hlt
    subst hq
    subst harr
    unfold receive_voice
    dsimp only
    rw [if_neg ht]
    simp [hlt]
  · unfold receive_voice getNoTimeout
    cases q with
    | cons f r => simp
    | nil => cases arr <;> simp

/-- Witness for C2 with timeout `1` on an empty queue and no arrival. -/
theorem c2_receive_voice_timeout_semantics_witness :
    receive_voice (some 1) [] none = RecvVoiceOutcome.timeoutKind := by
  have h := c2_receive_voice_timeout_semantics 1 (by norm_num) [] none
  exact h.1 rfl (by intro a f hf; cases hf)

/-- C9: a `disconnect()` followed by a `connect()` (whatever its outcome)
leaves the outbound queue, the inbound queue, and the set of frames already
consumed by `receive_voice` exactly as they were. -/
theorem c9_queues_survive_reconnect (cfg : Config) (w : World) :
    (step cfg (step cfg w Act.disconnect) Act.connect).m.sendQueue = w.m.sendQueue
  ∧ (step cfg (step cfg w Act.disconnect) Act.connect).m.recvQueue = w.m.recvQueue
  ∧ (step cfg (step cfg w Act.disconnect) Act.connect).consumed = w.consumed := by
  have hd := disconnect_queues cfg w
  have hc := connect_queues cfg (step cfg w Act.disconnect)
  have hds : step cfg w Act.disconnect = disconnect cfg w := rfl
  refine ⟨?_, ?_, ?_⟩
  · rw [hc.1, hds, hd.1]
  · rw [hc.2.1, hds, hd.2.1]
  · rw [hc.2.2, hds, hd.2.2]

/-- `disconnect` produces exactly: state `Disconnected`, no tasks, no stored
handle, queues and attempt counter untouched. -/
theorem disconnect_m (cfg : Config) (w : World) :
    (disconnect cfg w).m =
      { connected := false, ws := none, sendQueue := w.m.sendQueue,
        recvQueue := w.m.recvQueue, senderRunning := false,
        receiverRunning := false, connectAttempts := w.m.connectAttempts } := by
  have hcl := (closeStoredHandle_proj cfg { w with m := { w.m with connected := false, senderRunning := false, receiverRunning := false } }).1
  unfold disconnect notifyDisconnected
  dsimp only
  rw [hcl]

/-- One step preserves "if `Connected` then both loop tasks are running". -/
theorem connected_implies_running_step (cfg : Config) (w : World) (a : Act)
    (h : w.m.connected = true → w.m.senderRunning = true ∧ w.m.receiverRunning = true) :
    (step cfg w a).m.connected = true →
      (step cfg w a).m.senderRunning = true ∧ (step cfg w a).m.receiverRunning = true := by
  cases a with
  | connect =>
    cases hc : w.m.connected with
    | true => simpa [step, connectE, hc] using h
    | false =>
      cases hf : cfg.hasFactory with
      | false => simp [step, connectE, hc, hf]
      | true =>
        cases hfr : cfg.factoryRaises w.m.connectAttempts with
        | true => simp [step, connectE, hc, hf, hfr]
        | false => simp [step, connectE, notifyConnected, hc, hf, hfr]
  | disconnect =>
    intro hcon
    rw [show step cfg w Act.disconnect = disconnect cfg w from rfl, disconnect_m] at hcon
    simp at hcon
  | sendAudio f => simpa [step, send_audio] using h
  | receiveVoice =>
    cases hq : w.m.recvQueue with
    | nil => simpa [step, receiveVoiceStep, hq] using h
    | cons f rest => simpa [step, receiveVoiceStep, hq] using h
  | senderStep =>
    cases hr : w.m.senderRunning with
    | false => simpa [step, senderStep, hr] using h
    | true =>
      cases hc : w.m.connected with
      | false => simp [step, senderStep, hr, hc]
      | true =>
        cases hq : w.m.sendQueue with
        | nil => simpa [step, senderStep, hr, hc, hq] using h
        | cons f rest =>
          cases hws : w.m.ws with
          | none =>
            intro _
            simp [step, senderStep, hr, hc, hq, hws]
            exact (h hc).2
          | some hid =>
            by_cases hhs : (cfg.behavior hid).hasSend = true
            · cases hok : (cfg.behavior hid).sendOk ((w.handles hid).sendCalls) with
              | false =>
                simp [step, senderStep, notifyDisconnected, World.updHandle, hr, hc, hq, hws, hhs, hok]
              | true =>
                intro _
                simp [step, senderStep, World.updHandle, hr, hc, hq, hws, hhs, hok]
                exact (h hc).2
            · intro _
              simp [step, senderStep, hr, hc, hq, hws, hhs]
              exact (h hc).2
  | receiverStep =>
    cases hr : w.m.receiverRunning with
    | false => simpa [step, receiverStep, hr] using h
    | true =>
      cases hc : w.m.connected with
      | false => simp [step, receiverStep, hr, hc]
      | true =>
        cases hws : w.m.ws with
        | none => simpa [step, receiverStep, hr, hc, hws] using h
        | some hid =>
          by_cases hrcv : (cfg.behavior hid).hasRecv = true
          · cases hres : (cfg.behavior hid).recvRes ((w.handles hid).recvCalls) with
            | pending => simpa [step, receiverStep, hr, hc, hws, hrcv, hres] using h
            | closed =>
              simp [step, receiverStep, notifyDisconnected, World.updHandle, hr, hc, hws, hrcv, hres]
            | frame f =>
              intro _
              simp [step, receiverStep, notifyMessage, World.updHandle, hr, hc, hws, hrcv, hres]
              exact (h hc).1
            | raises =>
              simp [step, receiverStep, notifyDisconnected, World.updHandle, hr, hc, hws, hrcv, hres]
          · simpa [step, receiverStep, hr, hc, hws, hrcv] using h

/-- The invariant holds along every execution from any state satisfying it. -/
theorem connected_implies_running_run (cfg : Config) (acts : List Act) :
    ∀ w : World,
      (w.m.connected = true → w.m.senderRunning = true ∧ w.m.receiverRunning = true) →
      (run cfg w acts).m.connected = true →
        (run cfg w acts).m.senderRunning = true ∧ (run cfg w acts).m.receiverRunning = true := by
  induction acts with
  | nil => intro w h; exact h
  | cons a as ih =>
    intro w h
    exact ih (step cfg w a) (connected_implies_running_step cfg w a h)

/-- C4 amended: the "if" direction of the spec invariant — whenever the state
is `Connected`, both loop tasks are running.  (The "only if" direction fails:
see the counterexample — after an internal failure a loop can still be
running while the state is already `Disconnected`.) -/
theorem c4_connected_implies_loops_running (cfg : Config) (acts : List Act)
    (h : (run cfg World.init acts).m.connected = true) :
    (run cfg World.init acts).m.senderRunning = true
  ∧ (run cfg World.init acts).m.receiverRunning = true :=
  connected_implies_running_run cfg acts World.init
    (fun h0 => Bool.noConfusion h0) h

/-- Witness for C4 amended: right after a successful `connect()`. -/
theorem c4_connected_implies_loops_running_witness :
    (run cfgThrowers World.init [Act.connect]).m.senderRunning = true
  ∧ (run cfgThrowers World.init [Act.connect]).m.receiverRunning = true :=
  c4_connected_implies_loops_running cfgThrowers [Act.connect] rfl

/-- C4 counterexample: after `connect()`, one `send_audio`, and one sender
iteration whose transport `send` raises, the state is already `Disconnected`
while the receiver task is still running (blocked in `recv()`), so "loops run
iff state is Connected" fails at this point of execution. -/
theorem c4_loops_iff_connected_counterexample :
    (run cfgBadSend World.init [Act.connect, Act.sendAudio [1], Act.senderStep]).m.connected = false
  ∧ (run cfgBadSend World.init [Act.connect, Act.sendAudio [1], Act.senderStep]).m.receiverRunning = true :=
  ⟨rfl, rfl⟩

/-- A sender iteration never calls `close()` on any handle. -/
theorem senderStep_closeCalls (cfg : Config) (w : World) (n : Nat) :
    ((senderStep cfg w).handles n).closeCalls = (w.handles n).closeCalls := by
  cases hr : w.m.senderRunning with
  | false => simp [senderStep, hr]
  | true =>
    cases hc : w.m.connected with
    | false => simp [senderStep, hr, hc]
    | true =>
      cases hq : w.m.sendQueue with
      | nil => simp [senderStep, hr, hc, hq]
      | cons f rest =>
        cases hws : w.m.ws with
        | none => simp [senderStep, hr, hc, hq, hws]
        | some hid =>
          by_cases hhs : (cfg.behavior hid).hasSend = true
          · cases hok : (cfg.behavior hid).sendOk ((w.handles hid).sendCalls) with
            | true =>
              simp [senderStep, World.updHandle, notifyDisconnected, hr, hc, hq, hws, hhs, hok]
              by_cases hn : n = hid <;> simp [hn]
            | false =>
              simp [senderStep, World.updHandle, notifyDisconnected, hr, hc, hq, hws, hhs, hok]
              by_cases hn : n = hid <;> simp [hn]
          · simp [senderStep, hr, hc, hq, hws, hhs]

/-- A receiver iteration never calls `close()` on any handle. -/
theorem receiverStep_closeCalls (cfg : Config) (w : World) (n : Nat) :
    ((receiverStep cfg w).handles n).closeCalls = (w.handles n).closeCalls := by
  cases hr : w.m.receiverRunning with
  | false => simp [receiverStep, hr]
  | true =>
    cases hc : w.m.connected with
    | false => simp [receiverStep, hr, hc]
    | true =>
      cases hws : w.m.ws with
      | none => simp [receiverStep, hr, hc, hws]
      | some hid =>
        by_cases hrcv : (cfg.behavior hid).hasRecv = true
        · cases hres : (cfg.behavior hid).recvRes ((w.handles hid).recvCalls) with
          | pending => simp [receiverStep, hr, hc, hws, hrcv, hres]
          | closed =>
            simp [receiverStep, World.updHandle, notifyDisconnected, hr, hc, hws, hrcv, hres]
            by_cases hn : n = hid <;> simp [hn]
          | frame f =>
            simp [receiverStep, World.updHandle, notifyMessage, hr, hc, hws, hrcv, hres]
            by_cases hn : n = hid <;> simp [hn]
          | raises =>
            simp [receiverStep, World.updHandle, notifyDisconnected, hr, hc, hws, hrcv, hres]
            by_cases hn : n = hid <;> simp [hn]
        · simp [receiverStep, hr, hc, hws, hrcv]

/-- `disconnect` on a stored handle exposing `close` calls it exactly once,
swallowing any error. -/
theorem disconnect_closes_once (cfg : Config) (w : World) (hid : Nat)
    (hws : w.m.ws = some hid) (hcl : (cfg.behavior hid).hasClose = true) :
    ((disconnect cfg w).handles hid).closeCalls = (w.handles hid).closeCalls + 1 := by
  unfold disconnect notifyDisconnected closeStoredHandle World.updHandle
  dsimp only
  rw [hws]
  simp [hcl]
  split_ifs <;> simp

/-- `disconnect` with no stored handle leaves every handle untouched. -/
theorem disconnect_no_handle (cfg : Config) (w : World) (hws : w.m.ws = none) :
    (disconnect cfg w).handles = w.handles := by
  unfold disconnect notifyDisconnected closeStoredHandle
  dsimp only
  rw [hws]

/-- C3 amended: `close()` is invoked exactly once when the handle is
destroyed by `disconnect()` — including across a repeated `disconnect()`,
since the handle reference is cleared — and with any close error swallowed;
but an internal failure transition (a send or receive error inside a loop)
does not invoke `close()` at all: the handle is closed only by a later
`disconnect()` that still finds it stored. -/
theorem c3_close_called_exactly_once_by_disconnect (cfg : Config) (w : World)
    (hid : Nat) (hws : w.m.ws = some hid)
    (hcl : (cfg.behavior hid).hasClose = true) :
    ((disconnect cfg w).handles hid).closeCalls = (w.handles hid).closeCalls + 1
  ∧ (disconnect cfg w).m.ws = none
  ∧ ((disconnect cfg (disconnect cfg w)).handles hid).closeCalls = (w.handles hid).closeCalls + 1
  ∧ (∀ n, ((senderStep cfg w).handles n).closeCalls = (w.handles n).closeCalls)
  ∧ (∀ n, ((receiverStep cfg w).handles n).closeCalls = (w.handles n).closeCalls) := by
  have h1 := disconnect_closes_once cfg w hid hws hcl
  have hwnone : (disconnect cfg w).m.ws = none := by rw [disconnect_m]
  refine ⟨h1, hwnone, ?_, senderStep_closeCalls cfg w, receiverStep_closeCalls cfg w⟩
  rw [congrFun (disconnect_no_handle cfg (disconnect cfg w) hwnone) hid, h1]

/-- Witness for C3 amended: a freshly connected manager. -/
theorem c3_close_called_exactly_once_by_disconnect_witness :
    ((disconnect cfgThrowers wConnected).handles 0).closeCalls = (wConnected.handles 0).closeCalls + 1
  ∧ (disconnect cfgThrowers wConnected).m.ws = none :=
  ⟨(c3_close_called_exactly_once_by_disconnect cfgThrowers wConnected 0 rfl rfl).1,
   (c3_close_called_exactly_once_by_disconnect cfgThrowers wConnected 0 rfl rfl).2.1⟩

/-- C3 counterexample: the first handle is destroyed by an internal failure
transition (its `send` raises), a reconnect then replaces it, and a final
`disconnect` closes only the second handle: `close()` was invoked zero — not
exactly one — times on the first handle even though the execution ends fully
disconnected. -/
theorem c3_close_exactly_once_counterexample :
    ((run cfgBadSend World.init [Act.connect, Act.sendAudio [1], Act.senderStep, Act.connect, Act.disconnect]).handles 0).closeCalls = 0
  ∧ ((run cfgBadSend World.init [Act.connect, Act.sendAudio [1], Act.senderStep, Act.connect, Act.disconnect]).handles 0).sentLog = [[1]]
  ∧ ((run cfgBadSend World.init [Act.connect, Act.sendAudio [1], Act.senderStep, Act.connect, Act.disconnect]).handles 1).closeCalls = 1
  ∧ (run cfgBadSend World.init [Act.connect, Act.sendAudio [1], Act.senderStep, Act.connect, Act.disconnect]).m.ws = none :=
  ⟨rfl, rfl, rfl, rfl⟩

/-- `send_audio`-ing a list of frames appends them to the outbound queue and
changes nothing else the sender loop depends on. -/
theorem enqueueAll_proj (fs : List Frame) (w : World) :
    (enqueueAll fs w).m.sendQueue = w.m.sendQueue ++ fs
  ∧ (enqueueAll fs w).m.connected = w.m.connected
  ∧ (enqueueAll fs w).m.senderRunning = w.m.senderRunning
  ∧ (enqueueAll fs w).m.ws = w.m.ws
  ∧ (enqueueAll fs w).handles = w.handles := by
  induction fs generalizing w with
  | nil => simp [enqueueAll]
  | cons f rest ih =>
    have hstep : enqueueAll (f :: rest) w = enqueueAll rest (send_audio f w) := rfl
    have h := ih (send_audio f w)
    rw [hstep]
    refine ⟨?_, h.2.1, h.2.2.1, h.2.2.2.1, h.2.2.2.2⟩
    rw [h.1]
    simp [send_audio]

/-- One successful sender iteration: the head frame moves from the outbound
queue to the transport's send log; connection state, task flags and the
stored handle are untouched. -/
theorem senderStep_send_ok_proj (cfg : Config) (w : World) (hid : Nat)
    (f : Frame) (rest : List Frame)
    (hr : w.m.senderRunning = true) (hc : w.m.connected = true)
    (hq : w.m.sendQueue = f :: rest) (hws : w.m.ws = some hid)
    (hhs : (cfg.behavior hid).hasSend = true)
    (hok : (cfg.behavior hid).sendOk ((w.handles hid).sendCalls) = true) :
    (senderStep cfg w).m.sendQueue = rest
  ∧ (senderStep cfg w).m.connected = true
  ∧ (senderStep cfg w).m.senderRunning = true
  ∧ (senderStep cfg w).m.ws = some hid
  ∧ ((senderStep cfg w).handles hid).sentLog = (w.handles hid).sentLog ++ [f]
  ∧ ((senderStep cfg w).handles hid).sendCalls = (w.handles hid).sendCalls + 1 := by
  simp [senderStep, World.updHandle, hr, hc, hq, hws, hhs, hok]

/-- Draining the whole outbound queue through an error-free transport sends
exactly the queued frames, in order, after its existing log. -/
theorem senderDrain (cfg : Config) (hid : Nat)
    (hhs : (cfg.behavior hid).hasSend = true)
    (hok : ∀ n, (cfg.behavior hid).sendOk n = true) :
    ∀ (q : List Frame) (w : World),
      w.m.connected = true → w.m.senderRunning = true → w.m.ws = some hid →
      w.m.sendQueue = q →
      ((senderStep cfg)^[q.length] w).m.sendQueue = []
      ∧ (((senderStep cfg)^[q.length] w).handles hid).sentLog
          = (w.handles hid).sentLog ++ q := by
  intro q
  induction q with
  | nil =>
    intro w hc hr hws hq
    simpa using hq
  | cons f rest ih =>
    intro w hc hr hws hq
    have hstep := senderStep_send_ok_proj cfg w hid f rest hr hc hq hws hhs (hok _)
    rw [List.length_cons, Function.iterate_succ_apply]
    have hrec := ih (senderStep cfg w) hstep.2.1 hstep.2.2.1 hstep.2.2.2.1 hstep.1
    refine ⟨hrec.1, ?_⟩
    rw [hrec.2, hstep.2.2.2.2.1]
    simp

/-- C5: all frames passed to `send_audio` before the sender loop drains them
reach the transport's `send` in exactly the submission order (error-free
transport with a `send` method, empty outbound queue at the start). -/
theorem c5_send_audio_fifo (cfg : Config) (w : World) (hid : Nat)
    (fs : List Frame)
    (hc : w.m.connected = true) (hr : w.m.senderRunning = true)
    (hws : w.m.ws = some hid) (hq : w.m.sendQueue = [])
    (hhs : (cfg.behavior hid).hasSend = true)
    (hok : ∀ n, (cfg.behavior hid).sendOk n = true) :
    (((senderStep cfg)^[fs.length] (enqueueAll fs w)).handles hid).sentLog
      = (w.handles hid).sentLog ++ fs := by
  have he := enqueueAll_proj fs w
  have hq' : (enqueueAll fs w).m.sendQueue = fs := by rw [he.1, hq]; simp
  have hc' : (enqueueAll fs w).m.connected = true := by rw [he.2.1, hc]
  have hr' : (enqueueAll fs w).m.senderRunning = true := by rw [he.2.2.1, hr]
  have hws' : (enqueueAll fs w).m.ws = some hid := by rw [he.2.2.2.1, hws]
  have hd := (senderDrain cfg hid hhs hok fs (enqueueAll fs w) hc' hr' hws' hq').2
  rw [hd, he.2.2.2.2]

/-- Witness for C5: two frames enqueued on a fresh connection come out as
`send` calls in order. -/
theorem c5_send_audio_fifo_witness :
    (((senderStep cfgThrowers)^[List.length [[1], [2]]] (enqueueAll [[1], [2]] wConnected)).handles 0).sentLog
      = (wConnected.handles 0).sentLog ++ [[1], [2]] :=
  c5_send_audio_fifo cfgThrowers wConnected 0 [[1], [2]] rfl rfl rfl rfl rfl
    (fun _ => rfl)

/-- One receiver iteration that gets a frame from `recv()`: the frame is
appended to the inbound queue (before `on_message` subscribers run);
connection state, task flags, stored handle and consumed list are
untouched. -/
theorem receiverStep_frame_proj (cfg : Config) (w : World) (hid : Nat)
    (f : Frame)
    (hr : w.m.receiverRunning = true) (hc : w.m.connected = true)
    (hws : w.m.ws = some hid)
    (hrcv : (cfg.behavior hid).hasRecv = true)
    (hres : (cfg.behavior hid).recvRes ((w.handles hid).recvCalls) = RecvScript.frame f) :
    (receiverStep cfg w).m.recvQueue = w.m.recvQueue ++ [f]
  ∧ (receiverStep cfg w).m.connected = true
  ∧ (receiverStep cfg w).m.receiverRunning = true
  ∧ (receiverStep cfg w).m.ws = some hid
  ∧ ((receiverStep cfg w).handles hid).recvCalls = (w.handles hid).recvCalls + 1
  ∧ (receiverStep cfg w).consumed = w.consumed := by
  simp [receiverStep, World.updHandle, notifyMessage, hr, hc, hws, hrcv, hres]

/-- Receiving a scripted sequence of frames appends them to the inbound
queue in arrival order and consumes nothing. -/
theorem receiverFill (cfg : Config) (hid : Nat)
    (hrcv : (cfg.behavior hid).hasRecv = true) :
    ∀ (gs : List Frame) (w : World),
      w.m.connected = true → w.m.receiverRunning = true → w.m.ws = some hid →
      (∀ n, n < gs.length →
        (cfg.behavior hid).recvRes ((w.handles hid).recvCalls + n)
          = RecvScript.frame (gs.getD n [])) →
      ((receiverStep cfg)^[gs.length] w).m.recvQueue = w.m.recvQueue ++ gs
      ∧ ((receiverStep cfg)^[gs.length] w).consumed = w.consumed := by
  intro gs
  induction gs with
  | nil =>
    intro w _ _ _ _
    simp
  | cons g rest ih =>
    intro w hc hr hws hscript
    have h0 : (cfg.behavior hid).recvRes ((w.handles hid).recvCalls) = RecvScript.frame g := by
      have := hscript 0 (by simp)
      simpa using this
    have hstep := receiverStep_frame_proj cfg w hid g hr hc hws hrcv h0
    rw [List.length_cons, Function.iterate_succ_apply]
    have hscript' : ∀ n, n < rest.length →
        (cfg.behavior hid).recvRes (((receiverStep cfg w).handles hid).recvCalls + n)
          = RecvScript.frame (rest.getD n []) := by
      intro n hn
      rw [hstep.2.2.2.2.1]
      have harg : (w.handles hid).recvCalls + 1 + n = (w.handles hid).recvCalls + (n + 1) := by omega
      rw [harg]
      have := hscript (n + 1) (by simpa using Nat.succ_lt_succ hn)
      simpa using this
    have hrec := ih (receiverStep cfg w) hstep.2.1 hstep.2.2.1 hstep.2.2.2.1 hscript'
    constructor
    · rw [hrec.1, hstep.1]
      simp
    · rw [hrec.2, hstep.2.2.2.2.2]

/-- Successive `receive_voice` completions drain the inbound queue in FIFO
order, returning each queued frame exactly once. -/
theorem voiceDrain :
    ∀ (q : List Frame) (w : World), w.m.recvQueue = q →
      (receiveVoiceStep^[q.length] w).consumed = w.consumed ++ q
    ∧ (receiveVoiceStep^[q.length] w).m.recvQueue = [] := by
  intro q
  induction q with
  | nil =>
    intro w hq
    constructor <;> simp [hq]
  | cons f rest ih =>
    intro w hq
    rw [List.length_cons, Function.iterate_succ_apply]
    have hstep : receiveVoiceStep w
        = { w with m := { w.m with recvQueue := rest }, consumed := w.consumed ++ [f] } := by
      unfold receiveVoiceStep
      rw [hq]
    have hrec := ih (receiveVoiceStep w) (by rw [hstep])
    constructor
    · rw [hrec.1, hstep]
      simp
    · exact hrec.2

/-- C6: frames delivered by the transport's `recv()` are returned by
successive `receive_voice` calls in the same arrival order, each frame by
exactly one call (fresh connection, empty inbound queue, nothing consumed
yet; `on_message` subscribers — throwing or not — do not interfere). -/
theorem c6_receive_voice_fifo (cfg : Config) (w : World) (hid : Nat)
    (gs : List Frame)
    (hc : w.m.connected = true) (hr : w.m.receiverRunning = true)
    (hws : w.m.ws = some hid) (hrcv : (cfg.behavior hid).hasRecv = true)
    (hcalls : (w.handles hid).recvCalls = 0)
    (hscript : ∀ n, n < gs.length →
      (cfg.behavior hid).recvRes n = RecvScript.frame (gs.getD n []))
    (hq : w.m.recvQueue = []) (hcons : w.consumed = []) :
    (receiveVoiceStep^[gs.length] ((receiverStep cfg)^[gs.length] w)).consumed = gs
  ∧ (receiveVoiceStep^[gs.length] ((receiverStep cfg)^[gs.length] w)).m.recvQueue = [] := by
  have hscript0 : ∀ n, n < gs.length →
      (cfg.behavior hid).recvRes ((w.handles hid).recvCalls + n)
        = RecvScript.frame (gs.getD n []) := by
    intro n hn
    rw [hcalls]
    simpa using hscript n hn
  have hfill := receiverFill cfg hid hrcv gs w hc hr hws hscript0
  have hq1 : ((receiverStep cfg)^[gs.length] w).m.recvQueue = gs := by
    rw [hfill.1, hq]
    simp
  have hd := voiceDrain gs ((receiverStep cfg)^[gs.length] w) hq1
  constructor
  · rw [hd.1, hfill.2, hcons]
    simp
  · exact hd.2

/-- Witness for C6: two frames `[3]`, `[4]` delivered by `recv()` come out of
`receive_voice` in arrival order. -/
theorem c6_receive_voice_fifo_witness :
    (receiveVoiceStep^[List.length [[3], [4]]] ((receiverStep cfgRecvTwo)^[List.length [[3], [4]]] wRecvTwo)).consumed = [[3], [4]]
  ∧ (receiveVoiceStep^[List.length [[3], [4]]] ((receiverStep cfgRecvTwo)^[List.length [[3], [4]]] wRecvTwo)).m.recvQueue = [] :=
  c6_receive_voice_fifo cfgRecvTwo wRecvTwo 0 [[3], [4]] rfl rfl rfl rfl rfl
    (by decide) rfl rfl

/-- C8: at every subscriber invocation site (`on_connected` in `connect`,
`on_disconnected` in `disconnect` and the loops' failure paths, `on_message`
in the receiver loop), every registered subscriber — throwing or not — is
invoked, in registration order; a throwing subscriber changes nothing except
the log: the manager state (queues included), the transports and the
consumed list stay as they were, and the enclosing operation continues
(shown for the receiver loop: the frame is still enqueued and the loop still
runs and stays connected). -/
theorem c8_subscriber_exception_isolation (cfg : Config) (err : Option ErrKind)
    (f : Frame) (w : World) (hid : Nat)
    (hr : w.m.receiverRunning = true) (hc : w.m.connected = true)
    (hws : w.m.ws = some hid)
    (hrcv : (cfg.behavior hid).hasRecv = true)
    (hres : (cfg.behavior hid).recvRes ((w.handles hid).recvCalls) = RecvScript.frame f) :
    ((notifyConnected cfg w).m = w.m
      ∧ (notifyConnected cfg w).handles = w.handles
      ∧ (notifyConnected cfg w).consumed = w.consumed
      ∧ (notifyConnected cfg w).events
          = w.events ++ cfg.onConnected.map (fun c => Ev.onConnectedCall c.id c.throws))
  ∧ ((notifyDisconnected cfg err w).m = w.m
      ∧ (notifyDisconnected cfg err w).handles = w.handles
      ∧ (notifyDisconnected cfg err w).consumed = w.consumed
      ∧ (notifyDisconnected cfg err w).events
          = w.events ++ cfg.onDisconnected.map (fun c => Ev.onDisconnectedCall c.id err c.throws))
  ∧ ((notifyMessage cfg f w).m = w.m
      ∧ (notifyMessage cfg f w).handles = w.handles
      ∧ (notifyMessage cfg f w).consumed = w.consumed
      ∧ (notifyMessage cfg f w).events
          = w.events ++ cfg.onMessage.map (fun c => Ev.onMessageCall c.id f c.throws))
  ∧ ((receiverStep cfg w).m.recvQueue = w.m.recvQueue ++ [f]
      ∧ (receiverStep cfg w).m.connected = true
      ∧ (receiverStep cfg w).m.receiverRunning = true) := by
  have hp := receiverStep_frame_proj cfg w hid f hr hc hws hrcv hres
  exact ⟨⟨rfl, rfl, rfl, rfl⟩, ⟨rfl, rfl, rfl, rfl⟩, ⟨rfl, rfl, rfl, rfl⟩,
    hp.1, hp.2.1, hp.2.2.1⟩

/-- Witness for C8: registries whose first subscriber in each list throws;
the receiver loop still enqueues the received frame and keeps running. -/
theorem c8_subscriber_exception_isolation_witness :
    (receiverStep cfgThrowers wConnected).m.recvQueue = wConnected.m.recvQueue ++ [[9]]
  ∧ (receiverStep cfgThrowers wConnected).m.connected = true
  ∧ (receiverStep cfgThrowers wConnected).m.receiverRunning = true :=
  (c8_subscriber_exception_isolation cfgThrowers none [9] wConnected 0
    rfl rfl rfl rfl rfl).2.2.2

/-- C1 (evidence of the code defect): with a factory that raises on every
call and the stop signal arriving at the fourth consultation, the supervisor
makes two connect attempts, notifies every `on_disconnected` subscriber with
the factory error after each (including past a throwing subscriber), but
performs no backoff sleep whatsoever between the consecutive failed attempts
— the trace holds no `SupEv.backoffSleep` and no `SupEv.pollSleep`, only the
two attempts and the final cleanup disconnect.  The claim's "waits the next
duration from the BackoffSchedule" never happens: the only backoff sleep in
the source (lines 290–292) sits inside the except-handler of the final
cleanup and is unreachable. -/
theorem c1_supervisor_retries_without_backoff_wait :
    (runForever cfgAlwaysFail 3 10).trace
      = [SupEv.attempt, SupEv.attempt, SupEv.finalDisconnect]
  ∧ (runForever cfgAlwaysFail 3 10).w.m.connectAttempts = 2
  ∧ (runForever cfgAlwaysFail 3 10).w.events
      = [Ev.onDisconnectedCall 7 (some ErrKind.factoryError) false,
         Ev.onDisconnectedCall 8 (some ErrKind.factoryError) true,
         Ev.onDisconnectedCall 7 (some ErrKind.factoryError) false,
         Ev.onDisconnectedCall 8 (some ErrKind.factoryError) true,
         Ev.onDisconnectedCall 7 none false,
         Ev.onDisconnectedCall 8 none true]
  ∧ (runForever cfgAlwaysFail 3 10).backoffIdx = 0 :=
  ⟨rfl, rfl, rfl, rfl⟩
